import Mathlib

/-!
Shallow embedding of the PADI Recreational Dive Planner engine
(`dive_table.py`): the no-decompression-limit catalog, the pressure-group
table, the residual-nitrogen table, the surface-interval credit table, and
the five pure functions over them.  Python dicts are embedded as
association lists in insertion order (looked up with `List.lookup` /
`List.find?`, which return the first matching binding, matching Python
dict semantics because all keys are distinct); `float('inf')` becomes
`Option Int` with `none` standing for infinity; Python `int` becomes `Int`.
-/

namespace DiveTable

/-- No-Decompression Limits Table (depth in feet : max bottom time in minutes). -/
def no_deco_limits : List (Int × Int) :=
  [(35, 205), (40, 140), (50, 80), (60, 55), (70, 40), (80, 30),
   (90, 25), (100, 20), (110, 16), (120, 13), (130, 10), (140, 8)]

/-- Pressure groups A-Z mapped to their numeric index (0-25). -/
def PRESSURE_GROUPS : List Char :=
  ['A', 'B', 'C', 'D', 'E', 'F', 'G', 'H', 'I', 'J', 'K', 'L', 'M',
   'N', 'O', 'P', 'Q', 'R', 'S', 'T', 'U', 'V', 'W', 'X', 'Y', 'Z']

/-- Python `PRESSURE_GROUPS.index(g)` for a one-letter group string `g`. -/
def pgIndex (g : String) : Nat :=
  PRESSURE_GROUPS.findIdx (fun c => g == c.toString)

/-- The 26 pressure-group letters as one-character strings, A to Z. -/
def allGroups : List String :=
  ["A", "B", "C", "D", "E", "F", "G", "H", "I", "J", "K", "L", "M",
   "N", "O", "P", "Q", "R", "S", "T", "U", "V", "W", "X", "Y", "Z"]

/-- Pressure group table: per depth, ascending (max bottom time, group) pairs. -/
def pressure_group_table : List (Int × List (Int × String)) :=
  [(35, [(10, "A"), (19, "B"), (25, "C"), (29, "D"), (32, "E"), (36, "F"), (40, "G"), (44, "H"),
         (48, "I"), (52, "J"), (57, "K"), (62, "L"), (67, "M"), (73, "N"), (79, "O"), (85, "P"),
         (92, "Q"), (100, "R"), (108, "S"), (117, "T"), (127, "U"), (139, "V"), (152, "W"),
         (168, "X"), (188, "Y"), (205, "Z")]),
   (40, [(9, "A"), (16, "B"), (22, "C"), (25, "D"), (27, "E"), (31, "F"), (34, "G"), (37, "H"),
         (40, "I"), (44, "J"), (48, "K"), (51, "L"), (55, "M"), (60, "N"), (64, "O"), (69, "P"),
         (74, "Q"), (79, "R"), (85, "S"), (91, "T"), (97, "U"), (104, "V"), (111, "W"),
         (120, "X"), (129, "Y"), (140, "Z")]),
   (50, [(7, "A"), (13, "B"), (17, "C"), (19, "D"), (21, "E"), (24, "F"), (26, "G"), (28, "H"),
         (31, "I"), (33, "J"), (36, "K"), (38, "L"), (41, "M"), (44, "N"), (47, "O"), (50, "P"),
         (53, "Q"), (57, "R"), (60, "S"), (63, "T"), (67, "U"), (71, "V"), (75, "W"),
         (80, "X")]),
   (60, [(6, "A"), (11, "B"), (14, "C"), (16, "D"), (17, "E"), (19, "F"), (21, "G"), (23, "H"),
         (25, "I"), (27, "J"), (29, "K"), (31, "L"), (33, "M"), (35, "N"), (37, "O"), (39, "P"),
         (42, "Q"), (44, "R"), (47, "S"), (49, "T"), (52, "U"), (54, "V"), (55, "W")]),
   (70, [(5, "A"), (9, "B"), (12, "C"), (13, "D"), (15, "E"), (16, "F"), (18, "G"), (19, "H"),
         (21, "I"), (22, "J"), (24, "K"), (26, "L"), (27, "M"), (29, "N"), (31, "O"), (33, "P"),
         (35, "Q"), (36, "R"), (38, "S"), (40, "T")]),
   (80, [(4, "A"), (8, "B"), (10, "C"), (11, "D"), (13, "E"), (14, "F"), (15, "G"), (17, "H"),
         (18, "I"), (19, "J"), (21, "K"), (22, "L"), (23, "M"), (25, "N"), (26, "O"), (28, "P"),
         (29, "Q"), (30, "R")]),
   (90, [(4, "A"), (7, "B"), (9, "C"), (10, "D"), (11, "E"), (12, "F"), (13, "G"), (15, "H"),
         (16, "I"), (17, "J"), (18, "K"), (19, "L"), (21, "M"), (22, "N"), (23, "O"), (24, "P"),
         (25, "Q")]),
   (100, [(3, "A"), (6, "B"), (8, "C"), (9, "D"), (10, "E"), (11, "F"), (12, "G"), (13, "H"),
          (14, "I"), (15, "J"), (16, "K"), (17, "L"), (18, "M"), (19, "N"), (20, "O")]),
   (110, [(3, "A"), (5, "B"), (7, "C"), (8, "D"), (9, "E"), (10, "F"), (11, "G"), (12, "H"),
          (13, "I"), (14, "J"), (15, "K"), (16, "L")]),
   (120, [(3, "A"), (5, "B"), (6, "C"), (7, "D"), (8, "E"), (9, "F"), (10, "G"), (11, "H"),
          (12, "I"), (13, "J")]),
   (130, [(3, "A"), (4, "B"), (5, "C"), (6, "D"), (7, "E"), (8, "F"), (9, "G"), (10, "H")]),
   (140, [(3, "A"), (4, "B"), (5, "C"), (6, "D"), (7, "E"), (8, "F")])]

/-- Residual Nitrogen Time Table (Table 3); key (depth, pressure group). -/
def rnt_table : List ((Int × String) × Int) :=
  [((35, "A"), 10), ((35, "B"), 19), ((35, "C"), 25), ((35, "D"), 29), ((35, "E"), 32),
   ((35, "F"), 36), ((35, "G"), 40), ((35, "H"), 44), ((35, "I"), 48), ((35, "J"), 52),
   ((35, "K"), 57), ((35, "L"), 62), ((35, "M"), 67), ((35, "N"), 73), ((35, "O"), 79),
   ((35, "P"), 85), ((35, "Q"), 92), ((35, "R"), 100), ((35, "S"), 108), ((35, "T"), 117),
   ((35, "U"), 127), ((35, "V"), 139), ((35, "W"), 152), ((35, "X"), 168), ((35, "Y"), 188),
   ((35, "Z"), 205),
   ((40, "A"), 9), ((40, "B"), 16), ((40, "C"), 22), ((40, "D"), 25), ((40, "E"), 27),
   ((40, "F"), 31), ((40, "G"), 34), ((40, "H"), 37), ((40, "I"), 40), ((40, "J"), 44),
   ((40, "K"), 48), ((40, "L"), 51), ((40, "M"), 55), ((40, "N"), 60), ((40, "O"), 64),
   ((40, "P"), 69), ((40, "Q"), 74), ((40, "R"), 79), ((40, "S"), 85), ((40, "T"), 91),
   ((40, "U"), 97), ((40, "V"), 104), ((40, "W"), 111), ((40, "X"), 120), ((40, "Y"), 129),
   ((40, "Z"), 140),
   ((50, "A"), 7), ((50, "B"), 13), ((50, "C"), 17), ((50, "D"), 19), ((50, "E"), 21),
   ((50, "F"), 24), ((50, "G"), 26), ((50, "H"), 28), ((50, "I"), 31), ((50, "J"), 33),
   ((50, "K"), 36), ((50, "L"), 38), ((50, "M"), 41), ((50, "N"), 44), ((50, "O"), 47),
   ((50, "P"), 50), ((50, "Q"), 53), ((50, "R"), 57), ((50, "S"), 60), ((50, "T"), 63),
   ((50, "U"), 67), ((50, "V"), 71), ((50, "W"), 75), ((50, "X"), 80),
   ((60, "A"), 6), ((60, "B"), 11), ((60, "C"), 14), ((60, "D"), 16), ((60, "E"), 17),
   ((60, "F"), 19), ((60, "G"), 21), ((60, "H"), 23), ((60, "I"), 25), ((60, "J"), 27),
   ((60, "K"), 29), ((60, "L"), 31), ((60, "M"), 33), ((60, "N"), 35), ((60, "O"), 37),
   ((60, "P"), 39), ((60, "Q"), 42), ((60, "R"), 44), ((60, "S"), 47), ((60, "T"), 49),
   ((60, "U"), 52), ((60, "V"), 54), ((60, "W"), 55),
   ((70, "A"), 5), ((70, "B"), 9), ((70, "C"), 12), ((70, "D"), 13), ((70, "E"), 15),
   ((70, "F"), 16), ((70, "G"), 18), ((70, "H"), 19), ((70, "I"), 21), ((70, "J"), 22),
   ((70, "K"), 24), ((70, "L"), 26), ((70, "M"), 27), ((70, "N"), 29), ((70, "O"), 31),
   ((70, "P"), 33), ((70, "Q"), 35), ((70, "R"), 36), ((70, "S"), 38), ((70, "T"), 40),
   ((80, "A"), 4), ((80, "B"), 8), ((80, "C"), 10), ((80, "D"), 11), ((80, "E"), 13),
   ((80, "F"), 14), ((80, "G"), 15), ((80, "H"), 17), ((80, "I"), 18), ((80, "J"), 19),
   ((80, "K"), 21), ((80, "L"), 22), ((80, "M"), 23), ((80, "N"), 25), ((80, "O"), 26),
   ((80, "P"), 28), ((80, "Q"), 29), ((80, "R"), 30),
   ((90, "A"), 4), ((90, "B"), 7), ((90, "C"), 9), ((90, "D"), 10), ((90, "E"), 11),
   ((90, "F"), 12), ((90, "G"), 13), ((90, "H"), 15), ((90, "I"), 16), ((90, "J"), 17),
   ((90, "K"), 18), ((90, "L"), 19), ((90, "M"), 21), ((90, "N"), 22), ((90, "O"), 23),
   ((90, "P"), 24), ((90, "Q"), 25),
   ((100, "A"), 3), ((100, "B"), 6), ((100, "C"), 8), ((100, "D"), 9), ((100, "E"), 10),
   ((100, "F"), 11), ((100, "G"), 12), ((100, "H"), 13), ((100, "I"), 14), ((100, "J"), 15),
   ((100, "K"), 16), ((100, "L"), 17), ((100, "M"), 18), ((100, "N"), 19), ((100, "O"), 20),
   ((110, "A"), 3), ((110, "B"), 5), ((110, "C"), 7), ((110, "D"), 8), ((110, "E"), 9),
   ((110, "F"), 10), ((110, "G"), 11), ((110, "H"), 12), ((110, "I"), 13), ((110, "J"), 14),
   ((110, "K"), 15), ((110, "L"), 16),
   ((120, "A"), 3), ((120, "B"), 5), ((120, "C"), 6), ((120, "D"), 7), ((120, "E"), 8),
   ((120, "F"), 9), ((120, "G"), 10), ((120, "H"), 11), ((120, "I"), 12), ((120, "J"), 13),
   ((130, "A"), 3), ((130, "B"), 4), ((130, "C"), 5), ((130, "D"), 6), ((130, "E"), 7),
   ((130, "F"), 8), ((130, "G"), 9), ((130, "H"), 10),
   ((140, "A"), 3), ((140, "B"), 4), ((140, "C"), 5), ((140, "D"), 6), ((140, "E"), 7),
   ((140, "F"), 8)]

/-- A surface-interval minute range: lower bound and upper bound
(`none` = `float('inf')`). -/
abbrev SIRange : Type := Int × Option Int

/-- Surface Interval Credit Table, group Z block:
(old group, new group) : (min time, max time). -/
def si_group_Z : List ((String × String) × SIRange) :=
  [(("Z", "A"), (180, none)), (("Z", "B"), (159, some 179)), (("Z", "C"), (138, some 158)),
   (("Z", "D"), (120, some 137)), (("Z", "E"), (103, some 119)), (("Z", "F"), (87, some 102)),
   (("Z", "G"), (73, some 86)), (("Z", "H"), (60, some 72)), (("Z", "I"), (48, some 59)),
   (("Z", "J"), (37, some 47)), (("Z", "K"), (29, some 36)), (("Z", "L"), (22, some 28)),
   (("Z", "M"), (16, some 21)), (("Z", "N"), (11, some 15)), (("Z", "O"), (8, some 10)),
   (("Z", "P"), (5, some 7)), (("Z", "Q"), (4, some 4)), (("Z", "R"), (3, some 3)),
   (("Z", "S"), (2, some 2)), (("Z", "T"), (1, some 1)), (("Z", "U"), (0, some 0))]

/-- Surface Interval Credit Table, group Y block. -/
def si_group_Y : List ((String × String) × SIRange) :=
  [(("Y", "A"), (169, none)), (("Y", "B"), (147, some 168)), (("Y", "C"), (127, some 146)),
   (("Y", "D"), (109, some 126)), (("Y", "E"), (92, some 108)), (("Y", "F"), (77, some 91)),
   (("Y", "G"), (64, some 76)), (("Y", "H"), (52, some 63)), (("Y", "I"), (41, some 51)),
   (("Y", "J"), (32, some 40)), (("Y", "K"), (25, some 31)), (("Y", "L"), (19, some 24)),
   (("Y", "M"), (14, some 18)), (("Y", "N"), (10, some 13)), (("Y", "O"), (7, some 9)),
   (("Y", "P"), (5, some 6)), (("Y", "Q"), (3, some 4)), (("Y", "R"), (2, some 2)),
   (("Y", "S"), (1, some 1)), (("Y", "T"), (0, some 0))]

/-- Surface Interval Credit Table, group X block. -/
def si_group_X : List ((String × String) × SIRange) :=
  [(("X", "A"), (157, none)), (("X", "B"), (136, some 156)), (("X", "C"), (116, some 135)),
   (("X", "D"), (99, some 115)), (("X", "E"), (83, some 98)), (("X", "F"), (69, some 82)),
   (("X", "G"), (56, some 68)), (("X", "H"), (45, some 55)), (("X", "I"), (35, some 44)),
   (("X", "J"), (27, some 34)), (("X", "K"), (21, some 26)), (("X", "L"), (16, some 20)),
   (("X", "M"), (12, some 15)), (("X", "N"), (9, some 11)), (("X", "O"), (6, some 8)),
   (("X", "P"), (4, some 5)), (("X", "Q"), (3, some 3)), (("X", "R"), (2, some 2)),
   (("X", "S"), (0, some 1))]

/-- Surface Interval Credit Table, group W block. -/
def si_group_W : List ((String × String) × SIRange) :=
  [(("W", "A"), (146, none)), (("W", "B"), (125, some 145)), (("W", "C"), (106, some 124)),
   (("W", "D"), (89, some 105)), (("W", "E"), (74, some 88)), (("W", "F"), (61, some 73)),
   (("W", "G"), (49, some 60)), (("W", "H"), (39, some 48)), (("W", "I"), (30, some 38)),
   (("W", "J"), (23, some 29)), (("W", "K"), (18, some 22)), (("W", "L"), (13, some 17)),
   (("W", "M"), (10, some 12)), (("W", "N"), (7, some 9)), (("W", "O"), (5, some 6)),
   (("W", "P"), (3, some 4)), (("W", "Q"), (2, some 2)), (("W", "R"), (0, some 1))]

/-- Surface Interval Credit Table, group V block. -/
def si_group_V : List ((String × String) × SIRange) :=
  [(("V", "A"), (134, none)), (("V", "B"), (114, some 133)), (("V", "C"), (95, some 113)),
   (("V", "D"), (79, some 94)), (("V", "E"), (65, some 78)), (("V", "F"), (53, some 64)),
   (("V", "G"), (42, some 52)), (("V", "H"), (33, some 41)), (("V", "I"), (25, some 32)),
   (("V", "J"), (19, some 24)), (("V", "K"), (15, some 18)), (("V", "L"), (11, some 14)),
   (("V", "M"), (8, some 10)), (("V", "N"), (6, some 7)), (("V", "O"), (4, some 5)),
   (("V", "P"), (3, some 3)), (("V", "Q"), (0, some 2))]

/-- Surface Interval Credit Table, group U block. -/
def si_group_U : List ((String × String) × SIRange) :=
  [(("U", "A"), (122, none)), (("U", "B"), (103, some 121)), (("U", "C"), (85, some 102)),
   (("U", "D"), (70, some 84)), (("U", "E"), (56, some 69)), (("U", "F"), (45, some 55)),
   (("U", "G"), (35, some 44)), (("U", "H"), (27, some 34)), (("U", "I"), (21, some 26)),
   (("U", "J"), (16, some 20)), (("U", "K"), (12, some 15)), (("U", "L"), (9, some 11)),
   (("U", "M"), (7, some 8)), (("U", "N"), (5, some 6)), (("U", "O"), (3, some 4)),
   (("U", "P"), (0, some 2))]

/-- Surface Interval Credit Table, group T block. -/
def si_group_T : List ((String × String) × SIRange) :=
  [(("T", "A"), (111, none)), (("T", "B"), (93, some 110)), (("T", "C"), (75, some 92)),
   (("T", "D"), (61, some 74)), (("T", "E"), (48, some 60)), (("T", "F"), (38, some 47)),
   (("T", "G"), (29, some 37)), (("T", "H"), (22, some 28)), (("T", "I"), (17, some 21)),
   (("T", "J"), (13, some 16)), (("T", "K"), (10, some 12)), (("T", "L"), (7, some 9)),
   (("T", "M"), (5, some 6)), (("T", "N"), (4, some 4)), (("T", "O"), (0, some 3))]

/-- Surface Interval Credit Table, group S block. -/
def si_group_S : List ((String × String) × SIRange) :=
  [(("S", "A"), (100, none)), (("S", "B"), (83, some 99)), (("S", "C"), (66, some 82)),
   (("S", "D"), (53, some 65)), (("S", "E"), (41, some 52)), (("S", "F"), (32, some 40)),
   (("S", "G"), (24, some 31)), (("S", "H"), (18, some 23)), (("S", "I"), (14, some 17)),
   (("S", "J"), (11, some 13)), (("S", "K"), (8, some 10)), (("S", "L"), (6, some 7)),
   (("S", "M"), (4, some 5)), (("S", "N"), (0, some 3))]

/-- Surface Interval Credit Table, group R block. -/
def si_group_R : List ((String × String) × SIRange) :=
  [(("R", "A"), (89, none)), (("R", "B"), (73, some 88)), (("R", "C"), (57, some 72)),
   (("R", "D"), (45, some 56)), (("R", "E"), (35, some 44)), (("R", "F"), (27, some 34)),
   (("R", "G"), (20, some 26)), (("R", "H"), (15, some 19)), (("R", "I"), (11, some 14)),
   (("R", "J"), (9, some 10)), (("R", "K"), (7, some 8)), (("R", "L"), (5, some 6)),
   (("R", "M"), (0, some 4))]

/-- Surface Interval Credit Table, group Q block. -/
def si_group_Q : List ((String × String) × SIRange) :=
  [(("Q", "A"), (78, none)), (("Q", "B"), (63, some 77)), (("Q", "C"), (48, some 62)),
   (("Q", "D"), (37, some 47)), (("Q", "E"), (29, some 36)), (("Q", "F"), (22, some 28)),
   (("Q", "G"), (16, some 21)), (("Q", "H"), (12, some 15)), (("Q", "I"), (9, some 11)),
   (("Q", "J"), (7, some 8)), (("Q", "K"), (5, some 6)), (("Q", "L"), (0, some 4))]

/-- Surface Interval Credit Table, group P block. -/
def si_group_P : List ((String × String) × SIRange) :=
  [(("P", "A"), (67, none)), (("P", "B"), (54, some 66)), (("P", "C"), (40, some 53)),
   (("P", "D"), (30, some 39)), (("P", "E"), (23, some 29)), (("P", "F"), (17, some 22)),
   (("P", "G"), (13, some 16)), (("P", "H"), (10, some 12)), (("P", "I"), (7, some 9)),
   (("P", "J"), (5, some 6)), (("P", "K"), (0, some 4))]

/-- Surface Interval Credit Table, group O block. -/
def si_group_O : List ((String × String) × SIRange) :=
  [(("O", "A"), (57, none)), (("O", "B"), (44, some 56)), (("O", "C"), (32, some 43)),
   (("O", "D"), (24, some 31)), (("O", "E"), (18, some 23)), (("O", "F"), (13, some 17)),
   (("O", "G"), (10, some 12)), (("O", "H"), (7, some 9)), (("O", "I"), (5, some 6)),
   (("O", "J"), (0, some 4))]

/-- Surface Interval Credit Table, group N block. -/
def si_group_N : List ((String × String) × SIRange) :=
  [(("N", "A"), (46, none)), (("N", "B"), (35, some 45)), (("N", "C"), (25, some 34)),
   (("N", "D"), (18, some 24)), (("N", "E"), (13, some 17)), (("N", "F"), (10, some 12)),
   (("N", "G"), (7, some 9)), (("N", "H"), (5, some 6)), (("N", "I"), (0, some 4))]

/-- Surface Interval Credit Table, group M block. -/
def si_group_M : List ((String × String) × SIRange) :=
  [(("M", "A"), (36, none)), (("M", "B"), (26, some 35)), (("M", "C"), (18, some 25)),
   (("M", "D"), (13, some 17)), (("M", "E"), (9, some 12)), (("M", "F"), (7, some 8)),
   (("M", "G"), (5, some 6)), (("M", "H"), (0, some 4))]

/-- Surface Interval Credit Table, group L block. -/
def si_group_L : List ((String × String) × SIRange) :=
  [(("L", "A"), (26, none)), (("L", "B"), (18, some 25)), (("L", "C"), (12, some 17)),
   (("L", "D"), (8, some 11)), (("L", "E"), (6, some 7)), (("L", "F"), (4, some 5)),
   (("L", "G"), (0, some 3))]

/-- Surface Interval Credit Table, group K block. -/
def si_group_K : List ((String × String) × SIRange) :=
  [(("K", "A"), (17, none)), (("K", "B"), (11, some 16)), (("K", "C"), (7, some 10)),
   (("K", "D"), (5, some 6)), (("K", "E"), (3, some 4)), (("K", "F"), (0, some 2))]

/-- Surface Interval Credit Table, group J block. -/
def si_group_J : List ((String × String) × SIRange) :=
  [(("J", "A"), (8, none)), (("J", "B"), (5, some 7)), (("J", "C"), (3, some 4)),
   (("J", "D"), (2, some 2)), (("J", "E"), (0, some 1))]

/-- Surface Interval Credit Table, group I block. -/
def si_group_I : List ((String × String) × SIRange) :=
  [(("I", "A"), (4, none)), (("I", "B"), (2, some 3)), (("I", "C"), (1, some 1)),
   (("I", "D"), (0, some 0))]

/-- Surface Interval Credit Table, group H block. -/
def si_group_H : List ((String × String) × SIRange) :=
  [(("H", "A"), (2, none)), (("H", "B"), (1, some 1)), (("H", "C"), (0, some 0))]

/-- Surface Interval Credit Table, group G block. -/
def si_group_G : List ((String × String) × SIRange) :=
  [(("G", "A"), (1, none)), (("G", "B"), (0, some 0))]

/-- Surface Interval Credit Table, blocks F down to A (each only goes to A). -/
def si_group_F : List ((String × String) × SIRange) := [(("F", "A"), (0, none))]

/-- Surface Interval Credit Table, group E block. -/
def si_group_E : List ((String × String) × SIRange) := [(("E", "A"), (0, none))]

/-- Surface Interval Credit Table, group D block. -/
def si_group_D : List ((String × String) × SIRange) := [(("D", "A"), (0, none))]

/-- Surface Interval Credit Table, group C block. -/
def si_group_C : List ((String × String) × SIRange) := [(("C", "A"), (0, none))]

/-- Surface Interval Credit Table, group B block. -/
def si_group_B : List ((String × String) × SIRange) := [(("B", "A"), (0, none))]

/-- Surface Interval Credit Table, group A block. -/
def si_group_A : List ((String × String) × SIRange) := [(("A", "A"), (0, none))]

/-- Surface Interval Credit Table (in minutes), in the source's insertion
order: blocks Z down to A. -/
def surface_interval_table : List ((String × String) × SIRange) :=
  si_group_Z ++ si_group_Y ++ si_group_X ++ si_group_W ++ si_group_V ++ si_group_U ++
  si_group_T ++ si_group_S ++ si_group_R ++ si_group_Q ++ si_group_P ++ si_group_O ++
  si_group_N ++ si_group_M ++ si_group_L ++ si_group_K ++ si_group_J ++ si_group_I ++
  si_group_H ++ si_group_G ++ si_group_F ++ si_group_E ++ si_group_D ++ si_group_C ++
  si_group_B ++ si_group_A

/-- Python `min_time <= surface_interval <= max_time`, with `none` as infinity. -/
def siContains (si : Int) (rng : SIRange) : Bool :=
  rng.1 ≤ si && (match rng.2 with
    | none => true
    | some mx => si ≤ mx)

/-- Python `get_pressure_group`: pressure group letter from depth and bottom time. -/
def get_pressure_group (depth : Int) (time : Int) : String :=
  match pressure_group_table.lookup depth with
  | none => "Invalid depth"
  | some entries =>
    match entries.find? (fun e => time ≤ e.1) with
    | some e => e.2
    | none => "Exceeds limits"

/-- Python `check_ndl`: is the total bottom time within no-decompression limits. -/
def check_ndl (depth : Int) (tbt : Int) : Bool :=
  match no_deco_limits.lookup depth with
  | none => false
  | some lim => tbt ≤ lim

/-- Python `get_new_group_after_surface_interval`: new pressure group after a
surface interval.  Primary path: first table entry whose start group
matches and whose range contains the interval.  Fallback: sort the
matching transitions by ending-group index descending, return the ending
group of the first transition whose lower bound does not exceed the
interval; if none qualifies, return group A. -/
def get_new_group_after_surface_interval (old_group : String) (surface_interval : Int) :
    String :=
  match surface_interval_table.find?
      (fun e => e.1.1 == old_group && siContains surface_interval e.2) with
  | some e => e.1.2
  | none =>
    let possible_transitions :=
      ((surface_interval_table.filter (fun e => e.1.1 == old_group)).map
        (fun e => (e.1.1, e.1.2, e.2.1, e.2.2))).mergeSort
        (fun a b => pgIndex b.2.1 ≤ pgIndex a.2.1)
    match possible_transitions.find? (fun t => !(surface_interval < t.2.2.1)) with
    | some t => t.2.1
    | none => "A"

/-- Python `get_rnt`: residual nitrogen time for pressure group and planned depth;
a (depth, group) combination absent from the table yields 0. -/
def get_rnt (pg : String) (depth : Int) : Int :=
  let rnt := (rnt_table.lookup (depth, pg)).getD (-1)
  if 0 ≤ rnt then rnt else 0

/-- Python `calculate_total_bottom_time`: RNT + planned time. -/
def calculate_total_bottom_time (rnt : Int) (planned_time : Int) : Int :=
  rnt + planned_time

/-- Python `validate_repetitive_dive`: is a repetitive dive within limits. -/
def validate_repetitive_dive (depth : Int) (pg : String) (planned_time : Int) : Bool :=
  check_ndl depth (calculate_total_bottom_time (get_rnt pg depth) planned_time)

/-- The block of `surface_interval_table` whose transitions start at `g`
(a closed-form restatement of `surface_interval_table.filter` on the start
group, used to keep kernel evaluation per group small). -/
def siBlock (g : String) : List ((String × String) × SIRange) :=
  if g == "Z" then si_group_Z else if g == "Y" then si_group_Y else
  if g == "X" then si_group_X else if g == "W" then si_group_W else
  if g == "V" then si_group_V else if g == "U" then si_group_U else
  if g == "T" then si_group_T else if g == "S" then si_group_S else
  if g == "R" then si_group_R else if g == "Q" then si_group_Q else
  if g == "P" then si_group_P else if g == "O" then si_group_O else
  if g == "N" then si_group_N else if g == "M" then si_group_M else
  if g == "L" then si_group_L else if g == "K" then si_group_K else
  if g == "J" then si_group_J else if g == "I" then si_group_I else
  if g == "H" then si_group_H else if g == "G" then si_group_G else
  if g == "F" then si_group_F else if g == "E" then si_group_E else
  if g == "D" then si_group_D else if g == "C" then si_group_C else
  if g == "B" then si_group_B else if g == "A" then si_group_A else []

/-- A surface-interval table entry is "tame": its finite upper bound is at
most 179, and an unbounded entry has lower bound at most 180. -/
def siRangeOk (e : (String × String) × SIRange) : Bool :=
  match e.2.2 with
  | some mx => mx ≤ 179
  | none => e.2.1 ≤ 180

/-- Every (time, group) entry of a depth's pressure-group list has time at
most the last entry's time (vacuously true for the empty list). -/
def pgDepthOk (L : List (Int × String)) : Bool :=
  match L.getLast? with
  | some lm => L.all (fun e => e.1 ≤ lm.1)
  | none => true

example : get_pressure_group 40 40 = "I" := by rfl
example : get_new_group_after_surface_interval "Z" 0 = "U" := by rfl
example : get_new_group_after_surface_interval "I" 60 = "A" := by rfl
example : get_new_group_after_surface_interval "I" 2 = "B" := by rfl
example : get_rnt "C" 60 = 14 := by rfl
example : get_rnt "Z" 140 = 0 := by rfl
example : validate_repetitive_dive 130 "G" 5 = false := by rfl
example : validate_repetitive_dive 60 "C" 30 = true := by rfl
example : get_pressure_group 60 20 = "G" := by rfl
example : get_pressure_group 33 5 = "Invalid depth" := by rfl
example : get_pressure_group 140 9 = "Exceeds limits" := by rfl
example : check_ndl 60 55 = true := by rfl
example : check_ndl 60 56 = false := by rfl

/-! ### Generic helper lemmas on association lists and searches -/

/-- Running `find?` over a filtered list is `find?` of the conjoined predicate. -/
theorem filter_find?_eq {α : Type _} (l : List α) (p q : α → Bool) :
    (l.filter p).find? q = l.find? (fun a => p a && q a) := by
  induction l with
  | nil => rfl
  | cons a l ih =>
    cases hp : p a <;> cases hq : q a <;>
      simp [List.filter_cons, hp, List.find?_cons, hq, ih]

/-- A successful `List.lookup` yields a binding present in the list. -/
theorem lookup_mem {α β : Type _} [BEq α] [LawfulBEq α] :
    ∀ {l : List (α × β)} {k : α} {v : β}, l.lookup k = some v → (k, v) ∈ l := by
  intro l
  induction l with
  | nil => intro k v h; simp [List.lookup] at h
  | cons x xs ih =>
    intro k v h
    obtain ⟨a, b⟩ := x
    cases hk : k == a with
    | false =>
      simp only [List.lookup, hk] at h
      exact List.mem_cons_of_mem _ (ih h)
    | true =>
      simp only [List.lookup, hk, Option.some.injEq] at h
      cases eq_of_beq hk
      cases h
      exact List.mem_cons_self _ _

/-- A key absent from the key column makes `List.lookup` return `none`. -/
theorem lookup_eq_none_of_not_mem {α β : Type _} [BEq α] [LawfulBEq α] :
    ∀ {l : List (α × β)} {k : α}, k ∉ l.map Prod.fst → l.lookup k = none := by
  intro l
  induction l with
  | nil => intro k _; rfl
  | cons x xs ih =>
    intro k h
    obtain ⟨a, b⟩ := x
    simp only [List.map_cons, List.mem_cons] at h
    push_neg at h
    have hk : (k == a) = false := beq_eq_false_iff_ne.mpr h.1
    simpa [List.lookup, hk] using ih h.2

/-- The `find?` function returns the element at the first index satisfying the predicate:
every strictly earlier index fails it. -/
theorem find?_eq_some_first {α : Type _} (p : α → Bool) :
    ∀ {l : List α} {a : α}, l.find? p = some a →
      ∃ i, ∃ hi : i < l.length, l.get ⟨i, hi⟩ = a ∧ p a = true ∧
        ∀ j, ∀ hj : j < l.length, j < i → p (l.get ⟨j, hj⟩) = false := by
  intro l
  induction l with
  | nil => intro a h; simp at h
  | cons x xs ih =>
    intro a h
    cases hx : p x with
    | true =>
      rw [List.find?_cons_of_pos _ hx] at h
      cases h
      exact ⟨0, by simp, rfl, hx, fun j hj hji => absurd hji (by omega)⟩
    | false =>
      rw [List.find?_cons_of_neg _ (by simp [hx])] at h
      obtain ⟨i, hi, hget, hpa, hprev⟩ := ih h
      refine ⟨i + 1, by simpa using Nat.succ_lt_succ hi, hget, hpa, ?_⟩
      intro j hj hji
      cases j with
      | zero => exact hx
      | succ j' =>
        have hj' : j' < xs.length := by simpa using Nat.lt_of_succ_lt_succ hj
        exact hprev j' hj' (by omega)

/-- On a list whose measure `f` is weakly sorted, weakening the predicate
moves the `find?` result weakly earlier, hence to a measure-smaller hit. -/
theorem find?_mono {α : Type _} (f : α → Nat) (p q : α → Bool)
    (himp : ∀ a, q a = true → p a = true) :
    ∀ {l : List α}, l.Pairwise (fun a b => f a ≤ f b) →
      ∀ {a' : α}, l.find? q = some a' →
        ∃ a, l.find? p = some a ∧ f a ≤ f a' := by
  intro l
  induction l with
  | nil => intro _ a' h; simp at h
  | cons x xs ih =>
    intro hpw a' h
    rw [List.pairwise_cons] at hpw
    cases hq : q x with
    | true =>
      rw [List.find?_cons_of_pos _ hq] at h
      cases h
      exact ⟨x, List.find?_cons_of_pos _ (himp _ hq), le_refl _⟩
    | false =>
      rw [List.find?_cons_of_neg _ (by simp [hq])] at h
      cases hp : p x with
      | true =>
        exact ⟨x, List.find?_cons_of_pos _ hp, hpw.1 a' (List.mem_of_find?_eq_some h)⟩
      | false =>
        obtain ⟨a, ha, hfa⟩ := ih hpw.2 h
        exact ⟨a, by rw [List.find?_cons_of_neg _ (by simp [hp])]; exact ha, hfa⟩

/-! ### Decided facts about the concrete tables -/

/-- Filtering the surface-interval table on a start group yields that
group's block. -/
theorem siBlock_eq_filter : ∀ g ∈ allGroups,
    surface_interval_table.filter (fun e => e.1.1 == g) = siBlock g := by decide

set_option maxRecDepth 40000 in
set_option maxHeartbeats 4000000 in
/-- For surface intervals 0..180, each start group's block has exactly one
transition whose minute range contains the interval. -/
theorem siCountLow : ∀ g ∈ allGroups, ∀ n : Nat, n < 181 →
    (siBlock g).countP (fun e => siContains (n : Int) e.2) = 1 := by decide

/-- Each start group's block has exactly one unbounded transition, and all
its entries are tame (`siRangeOk`). -/
theorem siBoundsOk : ∀ g ∈ allGroups,
    (siBlock g).countP (fun e => e.2.2 == none) = 1 ∧
      ∀ e ∈ siBlock g, siRangeOk e = true := by decide

/-- Every start group's block begins with its transition to group A, whose
range is unbounded above and starts at or below 180. -/
theorem siBlock_headA : ∀ g ∈ allGroups,
    ∃ t mn, siBlock g = ((g, "A"), (mn, none)) :: t ∧ mn ≤ 180 := by
  intro g hg
  fin_cases hg <;> exact ⟨_, _, rfl, by decide⟩

set_option maxRecDepth 8000 in
/-- Every surface-interval transition ends at a group no higher-loaded than
its start group. -/
theorem si_end_le_start : ∀ e ∈ surface_interval_table,
    pgIndex e.1.2 ≤ pgIndex e.1.1 := by decide

set_option maxRecDepth 4000 in
/-- In each depth's pressure-group list, the group letters appear in weakly
increasing A-to-Z order. -/
theorem pg_table_sorted : ∀ ent ∈ pressure_group_table,
    ent.2.Pairwise (fun a b => pgIndex a.2 ≤ pgIndex b.2) := by decide

/-- In each depth's pressure-group list, every max time is at most the last
entry's max time. -/
theorem pgDepthOk_all : ∀ ent ∈ pressure_group_table, pgDepthOk ent.2 = true := by decide

set_option maxRecDepth 8000 in
/-- All residual-nitrogen-table values are non-negative. -/
theorem rnt_nonneg : ∀ e ∈ rnt_table, 0 ≤ e.2 := by decide

/-- Every group letter in the pressure-group table is one of A..Z. -/
theorem pg_groups_valid : ∀ ent ∈ pressure_group_table,
    ∀ e ∈ ent.2, e.2 ∈ allGroups := by decide

/-- For a surface interval of at least 180 minutes, membership in a tame
entry's range is equivalent to that entry being unbounded above. -/
theorem countP_big {L : List ((String × String) × SIRange)} {m : Int}
    (hm : (180 : Int) ≤ m) (hok : ∀ e ∈ L, siRangeOk e = true) :
    L.countP (fun e => siContains m e.2) = L.countP (fun e => e.2.2 == none) := by
  apply List.countP_congr
  intro e he
  have h := hok e he
  unfold siRangeOk at h
  cases h2 : e.2.2 with
  | none =>
    rw [h2] at h
    have h1 : e.2.1 ≤ 180 := by exact_mod_cast of_decide_eq_true h
    simp [siContains, h2, show e.2.1 ≤ m by omega]
  | some mx =>
    rw [h2] at h
    have h1 : mx ≤ 179 := by exact_mod_cast of_decide_eq_true h
    simp [siContains, h2, show ¬ (m ≤ mx) by omega]

/-! ### Claim theorems -/

/-- C3: `validate_repetitive_dive depth pg t` is exactly
`check_ndl depth (get_rnt pg depth + t)`, a total Boolean function; in
particular the repetitive dive at 130 ft from group G with 5 planned
minutes is rejected because RNT(G, 130) + 5 = 14 exceeds the 10-minute
limit at 130 ft. -/
theorem claim_C3 :
    (∀ (depth : Int) (pg : String) (planned_time : Int),
        validate_repetitive_dive depth pg planned_time =
          check_ndl depth (get_rnt pg depth + planned_time)) ∧
      get_rnt "G" 130 + 5 = 14 ∧ validate_repetitive_dive 130 "G" 5 = false :=
  ⟨fun _ _ _ => rfl, rfl, rfl⟩

/-- C5: `check_ndl` is true exactly when the total bottom time is at most
the depth's absolute limit (boundary inclusive), and is false for every
time at a depth absent from the catalog. -/
theorem claim_C5 :
    ∀ (depth tbt : Int),
      (∀ lim, no_deco_limits.lookup depth = some lim →
        (check_ndl depth tbt = true ↔ tbt ≤ lim)) ∧
      (depth ∉ no_deco_limits.map Prod.fst → check_ndl depth tbt = false) := by
  intro depth tbt
  constructor
  · intro lim h
    simp [check_ndl, h]
  · intro h
    simp [check_ndl, lookup_eq_none_of_not_mem h]

/-- Witness for C5 at depth 60 (limit 55) and unsupported depth 61. -/
theorem claim_C5_witness :
    check_ndl 60 55 = true ∧ check_ndl 60 56 = false ∧ check_ndl 61 5 = false := by
  refine ⟨((claim_C5 60 55).1 55 rfl).mpr (by decide), ?_, (claim_C5 61 5).2 (by decide)⟩
  cases hc : check_ndl 60 56 with
  | false => rfl
  | true => exact absurd (((claim_C5 60 56).1 55 rfl).mp hc) (by decide)

/-- C6: `get_rnt` returns the residual-nitrogen-table entry when the
(depth, group) combination is present and 0 (without failing) when it is
absent; in particular RNT(C, 60) = 14. -/
theorem claim_C6 :
    (∀ (pg : String) (depth v : Int),
        rnt_table.lookup (depth, pg) = some v → get_rnt pg depth = v) ∧
      (∀ (pg : String) (depth : Int),
        rnt_table.lookup (depth, pg) = none → get_rnt pg depth = 0) ∧
      get_rnt "C" 60 = 14 := by
  refine ⟨?_, ?_, rfl⟩
  · intro pg depth v h
    have hv : (0 : Int) ≤ v := rnt_nonneg _ (lookup_mem h)
    simp [get_rnt, h, hv]
  · intro pg depth h
    simp [get_rnt, h]

/-- Witness for C6: present combination (60, C) and absent combination
(140, Z). -/
theorem claim_C6_witness :
    get_rnt "C" 60 = 14 ∧ get_rnt "Z" 140 = 0 :=
  ⟨claim_C6.1 "C" 60 14 rfl, claim_C6.2.1 "Z" 140 rfl⟩

/-- C10: shortening the planned bottom time can never turn a safe verdict
unsafe: if the longer plan validates, so does the shorter one. -/
theorem claim_C10 :
    ∀ (depth : Int) (pg : String) (t t' : Int), t' ≤ t →
      validate_repetitive_dive depth pg t = true →
      validate_repetitive_dive depth pg t' = true := by
  intro depth pg t t' hle h
  simp only [validate_repetitive_dive, check_ndl, calculate_total_bottom_time] at h ⊢
  cases hd : no_deco_limits.lookup depth with
  | none => simp [hd] at h
  | some lim =>
    simp only [hd] at h ⊢
    have h1 := of_decide_eq_true h
    exact decide_eq_true (by omega)

/-- Witness for C10: the safe 30-minute plan at 60 ft from group C stays
safe when shortened to 10 minutes. -/
theorem claim_C10_witness :
    (10 : Int) ≤ 30 ∧ validate_repetitive_dive 60 "C" 30 = true ∧
      validate_repetitive_dive 60 "C" 10 = true :=
  ⟨by decide, by rfl, claim_C10 60 "C" 30 10 (by decide) (by rfl)⟩

/-- C1: for a supported depth and a non-negative bottom time at most the
last entry's max time, `get_pressure_group` is a ceiling lookup: it
returns the group of the first entry whose max time is at least the
bottom time; in particular 40 ft / 40 min gives I and 60 ft / 20 min
gives G. -/
theorem claim_C1 :
    (∀ (depth time : Int) (L : List (Int × String)) (lm : Int × String),
        pressure_group_table.lookup depth = some L → L.getLast? = some lm →
        0 ≤ time → time ≤ lm.1 →
        ∃ i, ∃ hi : i < L.length,
          get_pressure_group depth time = (L.get ⟨i, hi⟩).2 ∧
            time ≤ (L.get ⟨i, hi⟩).1 ∧
            ∀ j, ∀ hj : j < L.length, j < i → (L.get ⟨j, hj⟩).1 < time) ∧
      get_pressure_group 40 40 = "I" ∧ get_pressure_group 60 20 = "G" := by
  refine ⟨?_, rfl, rfl⟩
  intro depth time L lm hL hlast h0 hle
  have hlm : lm ∈ L := by
    have hmm : lm ∈ L.getLast? := by rw [hlast]; exact rfl
    obtain ⟨hne, heq⟩ := List.mem_getLast?_eq_getLast hmm
    exact heq ▸ List.getLast_mem hne
  have hsome : (L.find? (fun e => time ≤ e.1)).isSome :=
    List.find?_isSome.mpr ⟨lm, hlm, by simpa using hle⟩
  obtain ⟨e, he⟩ := Option.isSome_iff_exists.mp hsome
  obtain ⟨i, hi, hget, hpe, hprev⟩ := find?_eq_some_first _ he
  refine ⟨i, hi, ?_, ?_, ?_⟩
  · rw [hget]
    simp [get_pressure_group, hL, he]
  · rw [hget]
    exact of_decide_eq_true hpe
  · intro j hj hji
    have hf := hprev j hj hji
    have := of_decide_eq_false hf
    omega

/-- Witness for C1 at depth 60, time 20 (last entry (55, W)). -/
theorem claim_C1_witness :
    ∃ L : List (Int × String), pressure_group_table.lookup 60 = some L ∧
      ∃ i, ∃ hi : i < L.length,
        get_pressure_group 60 20 = (L.get ⟨i, hi⟩).2 ∧
          (20 : Int) ≤ (L.get ⟨i, hi⟩).1 ∧
          ∀ j, ∀ hj : j < L.length, j < i → (L.get ⟨j, hj⟩).1 < 20 :=
  ⟨_, rfl, claim_C1.1 60 20 _ (55, "W") rfl rfl (by decide) (by decide)⟩

/-- C7: `get_pressure_group` signals "Invalid depth" for any depth outside
the catalog regardless of time, signals "Exceeds limits" for a supported
depth whose bottom time strictly exceeds the last entry's max time, and
the two sentinels are distinct from each other and from every group
letter that the table can produce. -/
theorem claim_C7 :
    (∀ (depth time : Int), depth ∉ pressure_group_table.map Prod.fst →
        get_pressure_group depth time = "Invalid depth") ∧
      (∀ (depth time : Int) (L : List (Int × String)) (lm : Int × String),
        pressure_group_table.lookup depth = some L → L.getLast? = some lm →
        lm.1 < time → get_pressure_group depth time = "Exceeds limits") ∧
      ("Invalid depth" ≠ "Exceeds limits") ∧
      (∀ g ∈ allGroups, g ≠ "Invalid depth" ∧ g ≠ "Exceeds limits") ∧
      (∀ ent ∈ pressure_group_table, ∀ e ∈ ent.2, e.2 ∈ allGroups) := by
  refine ⟨?_, ?_, by decide, by decide, pg_groups_valid⟩
  · intro depth time h
    simp [get_pressure_group, lookup_eq_none_of_not_mem h]
  · intro depth time L lm hL hlast hlt
    have hok := pgDepthOk_all (depth, L) (lookup_mem hL)
    simp only [pgDepthOk, hlast] at hok
    have hall := List.all_eq_true.mp hok
    have hnone : L.find? (fun e => time ≤ e.1) = none := by
      apply List.find?_eq_none.mpr
      intro e he
      have h1 := of_decide_eq_true (hall e he)
      simp only [decide_eq_true_eq]
      omega
    simp [get_pressure_group, hL, hnone]

/-- Witness for C7: depth 33 is unsupported; 9 minutes at 140 ft exceeds
the last entry (8, F). -/
theorem claim_C7_witness :
    get_pressure_group 33 999 = "Invalid depth" ∧
      get_pressure_group 140 9 = "Exceeds limits" :=
  ⟨claim_C7.1 33 999 (by decide), claim_C7.2.1 140 9 _ (8, "F") rfl rfl (by decide)⟩

/-- C8: `get_pressure_group` is monotone in bottom time at a fixed
supported depth: when the larger time still resolves to a group, the
smaller time's group is at most the larger time's group in A-to-Z index
order. -/
theorem claim_C8 :
    ∀ (depth t t' : Int) (L : List (Int × String)),
      pressure_group_table.lookup depth = some L → t ≤ t' →
      get_pressure_group depth t' ≠ "Exceeds limits" →
      pgIndex (get_pressure_group depth t) ≤ pgIndex (get_pressure_group depth t') := by
  intro depth t t' L hL hle hne
  have hpw := pg_table_sorted (depth, L) (lookup_mem hL)
  cases he' : L.find? (fun e => t' ≤ e.1) with
  | none =>
    exact absurd (by simp [get_pressure_group, hL, he']) hne
  | some e' =>
    have himp : ∀ a : Int × String,
        (decide (t' ≤ a.1)) = true → (decide (t ≤ a.1)) = true := by
      intro a ha
      have := of_decide_eq_true ha
      exact decide_eq_true (by omega)
    obtain ⟨e, he, hfe⟩ := find?_mono (fun a => pgIndex a.2) _ _ himp hpw he'
    simp only [get_pressure_group, hL, he, he']
    exact hfe

/-- Witness for C8 at depth 60 with times 20 and 25 (groups G and I). -/
theorem claim_C8_witness :
    pgIndex (get_pressure_group 60 20) ≤ pgIndex (get_pressure_group 60 25) :=
  claim_C8 60 20 25 _ rfl (by decide) (by decide)

/-- The fallback scan of the surface-interval projector returns either the
ending group of some listed transition or "A", so any per-transition bound
on ending groups also bounds the fallback result. -/
theorem fallback_result_le (g : String) (m : Int)
    (l : List (String × String × Int × Option Int))
    (hl : ∀ t ∈ l, pgIndex t.2.1 ≤ pgIndex g) :
    pgIndex (match l.find? (fun t => !(m < t.2.2.1)) with
      | some t => t.2.1
      | none => "A") ≤ pgIndex g := by
  cases hf : l.find? (fun t => !(m < t.2.2.1)) with
  | none =>
    simp only [hf]
    have h0 : pgIndex "A" = 0 := rfl
    rw [h0]
    exact Nat.zero_le _
  | some t =>
    simp only [hf]
    exact hl t (List.mem_of_find?_eq_some hf)

/-- C9: any surface interval of at least 180 minutes fully desaturates:
the projected group is A for every starting group. -/
theorem claim_C9 :
    ∀ g ∈ allGroups, ∀ m : Int, (180 : Int) ≤ m →
      get_new_group_after_surface_interval g m = "A" := by
  intro g hg m hm
  obtain ⟨tl, mn, hblock, hmn⟩ := siBlock_headA g hg
  have hfind : surface_interval_table.find?
      (fun e => e.1.1 == g && siContains m e.2) = some ((g, "A"), (mn, none)) := by
    have h1 : (surface_interval_table.filter (fun e => e.1.1 == g)).find?
        (fun e => siContains m e.2) = some ((g, "A"), (mn, none)) := by
      rw [siBlock_eq_filter g hg, hblock]
      apply List.find?_cons_of_pos
      simp only [siContains]
      simp
      omega
    rw [filter_find?_eq] at h1
    exact h1
  simp [get_new_group_after_surface_interval, hfind]

/-- Witness for C9: a 200-minute interval from group Z yields A. -/
theorem claim_C9_witness :
    get_new_group_after_surface_interval "Z" 200 = "A" :=
  claim_C9 "Z" (by decide) 200 (by decide)

/-- C4: a surface interval never raises the pressure group: the projected
group's A-to-Z index is at most the starting group's, for every interval;
and at zero minutes the result is the ending group of the starting
group's zero-minute transition. -/
theorem claim_C4 :
    (∀ g ∈ allGroups, ∀ m : Int,
        pgIndex (get_new_group_after_surface_interval g m) ≤ pgIndex g) ∧
      (∀ g ∈ allGroups, ∃ e ∈ surface_interval_table,
        e.1.1 = g ∧ siContains 0 e.2 = true ∧
          get_new_group_after_surface_interval g 0 = e.1.2) := by
  constructor
  · intro g hg m
    cases hfind : surface_interval_table.find?
        (fun e => e.1.1 == g && siContains m e.2) with
    | some e =>
      have hmem : e ∈ surface_interval_table := List.mem_of_find?_eq_some hfind
      have hp := List.find?_some hfind
      simp only [Bool.and_eq_true, beq_iff_eq] at hp
      have hle := si_end_le_start e hmem
      rw [hp.1] at hle
      simpa [get_new_group_after_surface_interval, hfind] using hle
    | none =>
      simp only [get_new_group_after_surface_interval, hfind]
      apply fallback_result_le
      intro t ht
      have ht2 := (List.mergeSort_perm _ _).mem_iff.mp ht
      obtain ⟨e, he, rfl⟩ := List.mem_map.mp ht2
      have hef := List.mem_filter.mp he
      have hstart : e.1.1 = g := by simpa using hef.2
      have hle := si_end_le_start e hef.1
      rw [hstart] at hle
      exact hle
  · intro g hg
    have hcount := siCountLow g hg 0 (by omega)
    simp only [Nat.cast_zero] at hcount
    have hpos : 0 < (siBlock g).countP (fun e => siContains 0 e.2) := by omega
    obtain ⟨e0, he0, hp0⟩ := List.countP_pos_iff.mp hpos
    rw [← siBlock_eq_filter g hg] at he0
    have hef := List.mem_filter.mp he0
    have hsome : (surface_interval_table.find?
        (fun e => e.1.1 == g && siContains 0 e.2)).isSome := by
      apply List.find?_isSome.mpr
      refine ⟨e0, hef.1, ?_⟩
      rw [Bool.and_eq_true]
      exact ⟨hef.2, hp0⟩
    obtain ⟨e, hfind⟩ := Option.isSome_iff_exists.mp hsome
    have hp := List.find?_some hfind
    simp only [Bool.and_eq_true, beq_iff_eq] at hp
    refine ⟨e, List.mem_of_find?_eq_some hfind, hp.1, hp.2, ?_⟩
    simp [get_new_group_after_surface_interval, hfind]

/-- Witness for C4: a 45-minute interval from group Z lands at or below Z,
and the zero-minute projection from group I matches a listed transition. -/
theorem claim_C4_witness :
    pgIndex (get_new_group_after_surface_interval "Z" 45) ≤ pgIndex "Z" ∧
      ∃ e ∈ surface_interval_table, e.1.1 = "I" ∧ siContains 0 e.2 = true ∧
        get_new_group_after_surface_interval "I" 0 = e.1.2 :=
  ⟨claim_C4.1 "Z" (by decide) 45, claim_C4.2 "I" (by decide)⟩

/-- C2: for every start group and non-negative surface interval, exactly
one transition row of that group's listed transitions contains the
interval (the minute ranges partition [0, ∞) with no gaps or overlaps),
so the projector always returns through its primary exact-match scan and
the fallback branch is never reached. -/
theorem claim_C2 :
    ∀ g ∈ allGroups, ∀ m : Int, 0 ≤ m →
      (surface_interval_table.filter (fun e => e.1.1 == g)).countP
          (fun e => siContains m e.2) = 1 ∧
        ∃ e, surface_interval_table.find?
            (fun e => e.1.1 == g && siContains m e.2) = some e ∧
          get_new_group_after_surface_interval g m = e.1.2 := by
  intro g hg m hm
  have hcount : (siBlock g).countP (fun e => siContains m e.2) = 1 := by
    rcases le_or_lt 181 m with hbig | hsmall
    · rw [countP_big (by omega) (siBoundsOk g hg).2]
      exact (siBoundsOk g hg).1
    · have hmn : m = ((m.toNat : Nat) : Int) := (Int.toNat_of_nonneg hm).symm
      have hlt : m.toNat < 181 := by omega
      rw [hmn]
      exact siCountLow g hg m.toNat hlt
  constructor
  · rw [siBlock_eq_filter g hg]
    exact hcount
  · have hpos : 0 < (siBlock g).countP (fun e => siContains m e.2) := by omega
    obtain ⟨e0, he0, hp0⟩ := List.countP_pos_iff.mp hpos
    rw [← siBlock_eq_filter g hg] at he0
    have hef := List.mem_filter.mp he0
    have hsome : (surface_interval_table.find?
        (fun e => e.1.1 == g && siContains m e.2)).isSome := by
      apply List.find?_isSome.mpr
      refine ⟨e0, hef.1, ?_⟩
      rw [Bool.and_eq_true]
      exact ⟨hef.2, hp0⟩
    obtain ⟨e, hfind⟩ := Option.isSome_iff_exists.mp hsome
    exact ⟨e, hfind, by simp [get_new_group_after_surface_interval, hfind]⟩

/-- Witness for C2: group Z at 75 minutes (range 73..86, ending group G). -/
theorem claim_C2_witness :
    (surface_interval_table.filter (fun e => e.1.1 == "Z")).countP
        (fun e => siContains 75 e.2) = 1 ∧
      ∃ e, surface_interval_table.find?
          (fun e => e.1.1 == "Z" && siContains 75 e.2) = some e ∧
        get_new_group_after_surface_interval "Z" 75 = e.1.2 :=
  claim_C2 "Z" (by decide) 75 (by decide)

end DiveTable
